import Mathlib

/-!
Verification development for `wayrecon.py`, a Wayback Machine CDX API query
tool.  The pieces of the program that the specification's claims concern —
domain normalization, CDX URL construction, header-row stripping, the two
record filters, the two formatters, and the exit-code dispatch of `main` —
are shallowly embedded below.  Python strings are modelled as `List Char`
(code points); Python exceptions raised inside a modelled function are
modelled by an `Option` result, `none` standing for a raised exception.
-/

namespace Wayrecon

/-- Strings are modelled as lists of characters. -/
abbrev Str := List Char

/-- Embed a Lean string literal as a character list. -/
def str (s : String) : Str := s.data

/-- Model of Python `str.lower` on one character (ASCII letters; `wayrecon`
only ever feeds ASCII domain/URL data through it). -/
def lc (c : Char) : Char :=
  if 65 ≤ c.toNat ∧ c.toNat ≤ 90 then Char.ofNat (c.toNat + 32) else c

/-- Model of Python `str.lower`. -/
def pyLower (s : Str) : Str := s.map lc

/-- Python `str.strip`'s whitespace set: space, tab, newline, carriage
return, vertical tab, form feed. -/
def pyIsSpace (c : Char) : Bool :=
  c.toNat = 32 || c.toNat = 9 || c.toNat = 10 || c.toNat = 13 ||
    c.toNat = 11 || c.toNat = 12

/-- Model of Python `str.strip()`: drop whitespace from both ends. -/
def pyStrip (s : Str) : Str :=
  ((s.dropWhile pyIsSpace).reverse.dropWhile pyIsSpace).reverse

/-- `urllib.parse.urlparse(...).netloc` for an input that starts with
`http://` or `https://` and whose scheme prefix has been removed: the host
part extends to the first `/`, `?` or `#`. -/
def netlocOf (s : Str) : Str :=
  s.takeWhile (fun c => !(c == '/' || c == '?' || c == '#'))

/-- `wayrecon.py` lines 123-126: if the input starts with `http://` or
`https://`, keep only the `netloc` component of `urlparse`. -/
def schemeStripped (domain : Str) : Str :=
  if (str ("http://")).isPrefixOf domain then netlocOf (domain.drop 7)
  else if (str ("https://")).isPrefixOf domain then netlocOf (domain.drop 8)
  else domain

/-- `wayrecon.py` lines 128-130: remove a leading `www.` (case-sensitive,
as Python `startswith` is). -/
def wwwStripped (d : Str) : Str :=
  if (str ("www.")).isPrefixOf d then d.drop 4 else d

/-- `WaybackCDXQuery.normalize_domain` (`wayrecon.py` lines 113-132):
strip the scheme, strip a leading `www.`, then `lower().strip()`. -/
def normalize_domain (domain : Str) : Str :=
  pyStrip (pyLower (wwwStripped (schemeStripped domain)))

/-- Python `sep.join(parts)`. -/
def pyJoin (sep : Str) : List Str → Str
  | [] => []
  | [x] => x
  | x :: y :: rest => x ++ sep ++ pyJoin sep (y :: rest)

/-- `WaybackCDXQuery.build_cdx_url` (`wayrecon.py` lines 134-169): the
base URL, a `?`, then the `k=v` parameter pairs (in the insertion order of
the Python dict) joined with `&`. -/
def build_cdx_url (domain : Str) (text_mode : Bool) : Str :=
  let params : List (Str × Str) :=
    if text_mode then
      [(str ("url"), str ("*.") ++ domain ++ str ("/*")),
       (str ("collapse"), str ("urlkey")),
       (str ("output"), str ("text")),
       (str ("fl"), str ("original"))]
    else
      [(str ("url"), str ("*.") ++ domain ++ str ("/*")),
       (str ("collapse"), str ("urlkey")),
       (str ("output"), str ("json")),
       (str ("fl"), str ("original,timestamp,statuscode"))]
  str ("https://web.archive.org/cdx/search/cdx") ++ str ("?") ++
    pyJoin (str ("&")) (params.map (fun kv => kv.1 ++ str ("=") ++ kv.2))

/-- The literal header row `["original","timestamp","statuscode"]` that the
CDX API prepends to JSON output. -/
def headerRow : List Str :=
  [str ("original"), str ("timestamp"), str ("statuscode")]

/-- The header-stripping step of `WaybackCDXQuery.fetch_cdx_data`
(`wayrecon.py` lines 216-221), applied to the decoded JSON body: if the
list is non-empty and its first element equals the literal header row,
drop that first element; otherwise return the list unchanged. -/
def stripHeader (data : List (List Str)) : List (List Str) :=
  match data with
  | [] => []
  | first :: rest => if first = headerRow then rest else first :: rest

/-- A CDX record as the Python code dynamically distinguishes it: either a
list of string fields (JSON mode) or a bare string (text mode). -/
inductive CdxRecord where
  | structured (fields : List Str)
  | textual (s : Str)
deriving DecidableEq

/-- URL extraction in `filter_by_extensions` (`wayrecon.py` lines
270-274): in text mode `url = record` (a list record would later crash
`url.lower()`, modelled as `none`); otherwise `record[0]` for a list
(crashing on an empty list) and the record itself for a string. -/
def urlOf (text_mode : Bool) : CdxRecord → Option Str
  | .textual s => some s
  | .structured fields => if text_mode then none else fields.head?

/-- Extension normalization, `wayrecon.py` line 263:
`ext.lower().lstrip('.')`. -/
def normExt (e : Str) : Str := (pyLower e).dropWhile (· == '.')

/-- `wayrecon.py` lines 277-278: the lower-cased URL ends with `.` +
one of the (already normalized) extensions. -/
def extMatch (url : Str) (exts : List Str) : Bool :=
  exts.any (fun e => (str (".") ++ e).isSuffixOf (pyLower url))

/-- The record loop of `filter_by_extensions` (`wayrecon.py` lines
270-279), keeping matching records in order; `none` models a raised
exception while extracting or lower-casing a URL. -/
def extGo (text_mode : Bool) (exts : List Str) : List CdxRecord → Option (List CdxRecord)
  | [] => some []
  | r :: rs =>
    match urlOf text_mode r with
    | none => none
    | some url =>
      match extGo text_mode exts rs with
      | none => none
      | some rest => some (if extMatch url exts then r :: rest else rest)

/-- `WaybackCDXQuery.filter_by_extensions` (`wayrecon.py` lines 240-290):
an empty extension list returns the input unchanged (line 253-254);
otherwise the extensions are normalized once and the records scanned in
order. -/
def filter_by_extensions (data : List CdxRecord) (extensions : List Str)
    (text_mode : Bool) : Option (List CdxRecord) :=
  if extensions.isEmpty then some data
  else extGo text_mode (extensions.map normExt) data

/-- The digits of a decimal numeral, or `none` when empty or containing a
non-digit. -/
def digitsVal (l : List Char) : Option Nat :=
  if l.isEmpty || !l.all (fun c => 48 ≤ c.toNat && c.toNat ≤ 57) then none
  else some (l.foldl (fun acc c => 10 * acc + (c.toNat - 48)) 0)

/-- Model of Python `int(s)` on a string: strip whitespace, allow one
optional sign, then a non-empty run of decimal digits; `none` models the
`ValueError` raised otherwise.  (Python's underscore digit grouping is not
modelled; no claim depends on it.) -/
def pyInt (s : Str) : Option Int :=
  match pyStrip s with
  | '+' :: rest => (digitsVal rest).map (fun n => (n : Int))
  | '-' :: rest => (digitsVal rest).map (fun n => -(n : Int))
  | t => (digitsVal t).map (fun n => (n : Int))

/-- The record loop of `filter_by_status_codes` (`wayrecon.py` lines
320-329): a list record with at least three fields is kept iff
`int(record[2])` is in the target list (`none` models the `ValueError`
from `int`); a string record is passed through; a list record with fewer
than three fields falls through both branches and is dropped. -/
def statusGo (codes : List Int) : List CdxRecord → Option (List CdxRecord)
  | [] => some []
  | r :: rs =>
    match r with
    | .structured fields =>
      if 3 ≤ fields.length then
        match pyInt (fields.getD 2 []) with
        | none => none
        | some sc =>
          match statusGo codes rs with
          | none => none
          | some rest =>
            some (if sc ∈ codes then CdxRecord.structured fields :: rest else rest)
      else statusGo codes rs
    | .textual s =>
      match statusGo codes rs with
      | none => none
      | some rest => some (CdxRecord.textual s :: rest)

/-- `WaybackCDXQuery.filter_by_status_codes` (`wayrecon.py` lines
292-340): an empty status-code list returns the input unchanged (lines
304-305); otherwise the records are scanned in order. -/
def filter_by_status_codes (data : List CdxRecord) (status_codes : List Int) :
    Option (List CdxRecord) :=
  if status_codes.isEmpty then some data
  else statusGo status_codes data

/-- Python `str.ljust(w)`: pad on the right with spaces up to width `w`. -/
def ljust (s : Str) (w : Nat) : Str := s ++ List.replicate (w - s.length) ' '

/-- The per-record width update of `format_json_table` (`wayrecon.py`
lines 359-362): for each field index `i` below the number of columns,
take the max of the current width and the field's length; surplus widths
keep their value, surplus fields are ignored. -/
def updWidths (ws : List Nat) (record : List Str) : List Nat :=
  List.zipWith (fun w f => max w f.length) ws record ++ ws.drop record.length

/-- `WaybackCDXQuery.format_json_table` (`wayrecon.py` lines 342-377):
empty input yields the literal sentinel; otherwise a header line, a dash
rule of the header line's length, and one line per record, columns
left-justified to the computed widths and joined with `" | "`. -/
def format_json_table (data : List (List Str)) : Str :=
  if data.isEmpty then str ("No results.")
  else
    let headers := [str ("original"), str ("timestamp"), str ("statuscode")]
    let widths := data.foldl updWidths (headers.map List.length)
    let headerLine := pyJoin (str (" | ")) (List.zipWith ljust headers widths)
    let sep := List.replicate headerLine.length '-'
    let rows := data.map (fun record =>
      pyJoin (str (" | ")) (List.zipWith ljust record widths))
    pyJoin (str ("\n")) (headerLine :: sep :: rows)

/-- `WaybackCDXQuery.format_text_list` (`wayrecon.py` lines 379-392):
empty input yields the literal sentinel, otherwise the entries joined by
newlines. -/
def format_text_list (data : List Str) : Str :=
  if data.isEmpty then str ("No results.") else pyJoin (str ("\n")) data

/-- The possible outcomes of the pipeline inside `main`'s `try` block
(`wayrecon.py` lines 506-598), by which exception (if any) escapes it. -/
inductive RunEvent where
  | ok
  | netErr
  | jsonErr
  | interrupt
  | ioWriteErr
  | otherErr
deriving DecidableEq

/-- The exit status of `main` (`wayrecon.py` lines 465-483, 486-490,
402-409, 584-598): no arguments at all prints help and exits 0; a missing
`-u` domain exits 1; then a clean run exits 0, a `RequestException` exits
1, a `JSONDecodeError` exits 1, a `KeyboardInterrupt` exits 0, an
`IOError` inside `save_to_file` exits 1, and any other exception exits
1. -/
def main_exit (no_args : Bool) (url_given : Bool) (ev : RunEvent) : Nat :=
  if no_args then 0
  else if !url_given then 1
  else
    match ev with
    | .ok => 0
    | .netErr => 1
    | .jsonErr => 1
    | .interrupt => 0
    | .ioWriteErr => 1
    | .otherErr => 1

/-- Claim C1 (counterexample): the claim that
`normalize_domain "https://WWW.Example.com/"` returns `"example.com"` is
false on the code: the `www.` check is case-sensitive and runs before
lower-casing, so the `WWW.` prefix survives. -/
theorem c1_normalize_example_counterexample :
    ¬ normalize_domain (str ("https://WWW.Example.com/")) = str ("example.com") := by
  decide

/-- Claim C1 (amended): applied to `"https://WWW.Example.com/"`, the
normalizer returns `"www.example.com"`: the scheme is removed and the
result lower-cased and trimmed, but the `www.` prefix is not removed
because the case-sensitive prefix check runs before lower-casing. -/
theorem c1_normalize_example :
    normalize_domain (str ("https://WWW.Example.com/")) = str ("www.example.com") := by
  decide

/-- Claim C2 (counterexample): the normalizer is not idempotent: on
`"WWW.x"` one application gives `"www.x"` (the case-sensitive `www.`
check fails before lower-casing) and a second application gives `"x"`. -/
theorem c2_normalize_not_idempotent :
    ¬ normalize_domain (normalize_domain (str ("WWW.x"))) =
        normalize_domain (str ("WWW.x")) := by
  decide

/-- Claim C5: the fetcher's header stripping on a decoded non-empty JSON
list removes the literal header triple only when it is the first element
and removes exactly one row: a second consecutive header row remains, and
a list whose first element is not the header row is unchanged. -/
theorem c5_stripHeader_spec :
    (∀ rest, stripHeader (headerRow :: rest) = rest) ∧
    (∀ rest, stripHeader (headerRow :: headerRow :: rest) = headerRow :: rest) ∧
    (∀ first rest, first ≠ headerRow → stripHeader (first :: rest) = first :: rest) := by
  refine ⟨fun rest => ?_, fun rest => ?_, fun first rest h => ?_⟩ <;>
    simp [stripHeader, *]

/-- Witness for C5 at concrete inputs: a doubled header row loses only its
first occurrence, and a non-header first row is kept. -/
theorem c5_stripHeader_witness :
    stripHeader [headerRow, headerRow] = [headerRow] ∧
    stripHeader [[str ("http://t.com/a")]] = [[str ("http://t.com/a")]] :=
  ⟨c5_stripHeader_spec.2.1 [], c5_stripHeader_spec.2.2 [str ("http://t.com/a")] [] (by decide)⟩

/-- Claim C6: for every domain, the URL builder produces exactly the
claimed text-mode and JSON-mode URLs; it is a pure string computation. -/
theorem c6_build_cdx_url_spec (domain : Str) :
    build_cdx_url domain true =
      str ("https://web.archive.org/cdx/search/cdx?url=*.") ++ domain ++
        str ("/*&collapse=urlkey&output=text&fl=original") ∧
    build_cdx_url domain false =
      str ("https://web.archive.org/cdx/search/cdx?url=*.") ++ domain ++
        str ("/*&collapse=urlkey&output=json&fl=original,timestamp,statuscode") := by
  have h1 : str ("https://web.archive.org/cdx/search/cdx?url=*.") =
      str ("https://web.archive.org/cdx/search/cdx") ++
        (str ("?") ++ (str ("url") ++ (str ("=") ++ str ("*.")))) := by decide
  have h2 : str ("/*&collapse=urlkey&output=text&fl=original") =
      str ("/*") ++ (str ("&") ++ (str ("collapse") ++ (str ("=") ++ (str ("urlkey") ++
        (str ("&") ++ (str ("output") ++ (str ("=") ++ (str ("text") ++ (str ("&") ++
          (str ("fl") ++ (str ("=") ++ str ("original")))))))))))) := by decide
  have h3 : str ("/*&collapse=urlkey&output=json&fl=original,timestamp,statuscode") =
      str ("/*") ++ (str ("&") ++ (str ("collapse") ++ (str ("=") ++ (str ("urlkey") ++
        (str ("&") ++ (str ("output") ++ (str ("=") ++ (str ("json") ++ (str ("&") ++
          (str ("fl") ++ (str ("=") ++
            str ("original,timestamp,statuscode")))))))))))) := by decide
  constructor
  · rw [h1, h2]; simp [build_cdx_url, pyJoin, List.append_assoc]
  · rw [h1, h3]; simp [build_cdx_url, pyJoin, List.append_assoc]

/-- Claim C7: an empty criteria list makes each filter the identity: both
`filter_by_extensions` with no extensions and `filter_by_status_codes`
with no status codes return their input collection unchanged (and raise
nothing). -/
theorem c7_empty_criteria_identity :
    (∀ (data : List CdxRecord) (text_mode : Bool),
        filter_by_extensions data [] text_mode = some data) ∧
    (∀ data : List CdxRecord, filter_by_status_codes data [] = some data) :=
  ⟨fun _ _ => rfl, fun _ => rfl⟩

/-- Claim C8: `main` exits 0 on user interruption and 0 on a clean run,
and exits 1 on a network error, a JSON decode error, a file-write error,
a missing `-u` argument, or any other uncaught exception. -/
theorem c8_exit_codes :
    main_exit false true RunEvent.interrupt = 0 ∧
    main_exit false true RunEvent.ok = 0 ∧
    main_exit false true RunEvent.netErr = 1 ∧
    main_exit false true RunEvent.jsonErr = 1 ∧
    main_exit false true RunEvent.ioWriteErr = 1 ∧
    main_exit false true RunEvent.otherErr = 1 ∧
    (∀ ev, main_exit false false ev = 1) :=
  ⟨rfl, rfl, rfl, rfl, rfl, rfl, fun _ => rfl⟩

/-- Claim C9: both formatters map an empty record collection to exactly
the literal sentinel `"No results."`. -/
theorem c9_empty_formatters :
    format_json_table [] = str ("No results.") ∧
    format_text_list [] = str ("No results.") :=
  ⟨rfl, rfl⟩

/-- Claim C10: the status-code filter is not total over structured
records: on a structured record whose third field is `"-"` (not a decimal
integer string), filtering with the non-empty target set `[404]` raises
(`none`) instead of keeping or dropping the record. -/
theorem c10_status_filter_raises :
    filter_by_status_codes
        [CdxRecord.structured [str ("http://a.com/"), str ("20200101000000"), str ("-")]]
        [404] = none := by
  decide

theorem toNat_lc_of_upper {c : Char} (h : 65 ≤ c.toNat ∧ c.toNat ≤ 90) :
    (lc c).toNat = c.toNat + 32 := by
  have hv : (c.toNat + 32).isValidChar := Or.inl (by omega)
  rw [lc, if_pos h, Char.ofNat, dif_pos hv]
  rfl

theorem lc_eq_self {c : Char} (h : ¬(65 ≤ c.toNat ∧ c.toNat ≤ 90)) : lc c = c := by
  rw [lc, if_neg h]

theorem lc_idem (c : Char) : lc (lc c) = lc c := by
  by_cases h : 65 ≤ c.toNat ∧ c.toNat ≤ 90
  · have ht := toNat_lc_of_upper h
    exact lc_eq_self (by omega)
  · rw [lc_eq_self h, lc_eq_self h]

theorem pyIsSpace_lc (c : Char) : pyIsSpace (lc c) = pyIsSpace c := by
  by_cases h : 65 ≤ c.toNat ∧ c.toNat ≤ 90
  · have ht := toNat_lc_of_upper h
    have h1 : pyIsSpace (lc c) = false := by simp [pyIsSpace, ht]; all_goals omega
    have h2 : pyIsSpace c = false := by simp [pyIsSpace]; all_goals omega
    rw [h1, h2]
  · rw [lc_eq_self h]

theorem pyIsSpace_comp_lc : pyIsSpace ∘ lc = pyIsSpace := funext pyIsSpace_lc

theorem pyLower_idem (l : Str) : pyLower (pyLower l) = pyLower l := by
  induction l with
  | nil => rfl
  | cons a t ih =>
    simp only [pyLower] at ih
    simp only [pyLower, List.map_cons, lc_idem, ih]

theorem map_lc_dropWhile (x : Str) :
    List.map lc (x.dropWhile pyIsSpace) = (List.map lc x).dropWhile pyIsSpace := by
  rw [List.dropWhile_map, pyIsSpace_comp_lc]

theorem pyLower_pyStrip (l : Str) : pyLower (pyStrip l) = pyStrip (pyLower l) := by
  rw [pyStrip, pyStrip, pyLower, pyLower, List.map_reverse, map_lc_dropWhile,
    List.map_reverse, map_lc_dropWhile]

theorem dropWhile_idem (p : Char → Bool) (l : Str) :
    (l.dropWhile p).dropWhile p = l.dropWhile p := by
  induction l with
  | nil => rfl
  | cons a t ih =>
    by_cases h : p a
    · simp [List.dropWhile_cons, h, ih]
    · simp [List.dropWhile_cons, h]

theorem head_false_of_dropWhile_eq {p : Char → Bool} {a : Char} {l t : Str}
    (h : l.dropWhile p = a :: t) : p a = false := by
  induction l with
  | nil => simp [List.dropWhile] at h
  | cons b u ih =>
    rw [List.dropWhile_cons] at h
    by_cases hb : p b
    · rw [if_pos hb] at h; exact ih h
    · rw [if_neg hb] at h
      cases h
      simp [hb]
theorem pyStrip_fix {m : Str} (hm : m.dropWhile pyIsSpace = m)
    (hm2 : m.reverse.dropWhile pyIsSpace = m.reverse) : pyStrip m = m := by
  rw [pyStrip, hm, hm2, List.reverse_reverse]

theorem pyStrip_idem (l : Str) : pyStrip (pyStrip l) = pyStrip l := by
  have hsplit : ((l.dropWhile pyIsSpace).reverse.dropWhile pyIsSpace).reverse ++
      ((l.dropWhile pyIsSpace).reverse.takeWhile pyIsSpace).reverse =
      l.dropWhile pyIsSpace := by
    rw [← List.reverse_append, List.takeWhile_append_dropWhile, List.reverse_reverse]
  have hB : (pyStrip l).dropWhile pyIsSpace = pyStrip l := by
    rw [pyStrip]
    cases hBe : ((l.dropWhile pyIsSpace).reverse.dropWhile pyIsSpace).reverse with
    | nil => rfl
    | cons b B2 =>
      rw [hBe] at hsplit
      have hpb : pyIsSpace b = false :=
        head_false_of_dropWhile_eq (l := l.dropWhile pyIsSpace)
          (t := B2 ++ ((l.dropWhile pyIsSpace).reverse.takeWhile pyIsSpace).reverse)
          (by rw [dropWhile_idem]; exact hsplit.symm)
      simp [List.dropWhile_cons, hpb]
  have hm2 : (pyStrip l).reverse.dropWhile pyIsSpace = (pyStrip l).reverse := by
    rw [pyStrip, List.reverse_reverse]
    exact dropWhile_idem pyIsSpace (l.dropWhile pyIsSpace).reverse
  exact pyStrip_fix hB hm2

theorem pyStrip_pyLower_canon (y : Str) :
    pyStrip (pyLower (pyStrip (pyLower y))) = pyStrip (pyLower y) := by
  rw [pyLower_pyStrip, pyLower_idem, pyStrip_idem]

theorem c2_normalize_idempotent_on_clean (s : Str)
    (h1 : (str ("http://")).isPrefixOf (normalize_domain s) = false)
    (h2 : (str ("https://")).isPrefixOf (normalize_domain s) = false)
    (h3 : (str ("www.")).isPrefixOf (normalize_domain s) = false) :
    normalize_domain (normalize_domain s) = normalize_domain s := by
  have hsch : schemeStripped (normalize_domain s) = normalize_domain s := by
    rw [schemeStripped, if_neg (by simp [h1]), if_neg (by simp [h2])]
  have hwww : wwwStripped (normalize_domain s) = normalize_domain s := by
    rw [wwwStripped, if_neg (by simp [h3])]
  rw [normalize_domain, hsch, hwww, normalize_domain]
  exact pyStrip_pyLower_canon _

theorem c2_normalize_idempotent_witness :
    normalize_domain (normalize_domain (str (" Example.COM "))) =
      normalize_domain (str (" Example.COM ")) :=
  c2_normalize_idempotent_on_clean (str (" Example.COM "))
    (by decide) (by decide) (by decide)
/-- The URL the specification attributes to a record: the first element
when the record is structured, the string itself when it is textual. -/
def claimUrl : CdxRecord → Str
  | .structured fields => fields.headD []
  | .textual s => s

theorem claimUrl_eq {text_mode : Bool} {r : CdxRecord} {u : Str}
    (hu : urlOf text_mode r = some u) : claimUrl r = u := by
  cases r with
  | textual s => simp [urlOf] at hu; simp [claimUrl, hu]
  | structured fields =>
    cases fields with
    | nil => cases text_mode <;> simp [urlOf] at hu
    | cons a t =>
      cases text_mode
      · simp [urlOf] at hu; simp [claimUrl, hu]
      · simp [urlOf] at hu

theorem extGo_spec (text_mode : Bool) (nexts : List Str) (data : List CdxRecord)
    (hwf : ∀ r ∈ data, (urlOf text_mode r).isSome) :
    extGo text_mode nexts data =
      some (data.filter (fun r => extMatch (claimUrl r) nexts)) := by
  induction data with
  | nil => rfl
  | cons r rs ih =>
    obtain ⟨u, hu⟩ := Option.isSome_iff_exists.mp (hwf r (List.mem_cons_self r rs))
    have hcu : claimUrl r = u := claimUrl_eq hu
    have hrest := ih (fun x hx => hwf x (List.mem_cons_of_mem r hx))
    rw [extGo, hu, hrest, List.filter_cons]
    by_cases hm : extMatch u nexts = true
    · simp [hcu, hm]
    · simp [hcu, hm]

/-- Claim C3: with a non-empty extension list, on a record collection
whose records all yield a URL (structured records are non-empty lists and
text-mode collections hold only strings), the extension filter keeps
exactly the records whose URL — first element if structured, the string
itself if textual — lower-cased, ends with `.` followed by one of the
extensions after they are lower-cased and stripped of leading dots; kept
records appear in their original order. -/
theorem c3_filter_by_extensions_spec (data : List CdxRecord) (extensions : List Str)
    (text_mode : Bool) (hne : extensions ≠ [])
    (hwf : ∀ r ∈ data, (urlOf text_mode r).isSome) :
    filter_by_extensions data extensions text_mode =
      some (data.filter (fun r => extMatch (claimUrl r) (extensions.map normExt))) := by
  rw [filter_by_extensions, if_neg (by simp [List.isEmpty_iff, hne])]
  exact extGo_spec text_mode (extensions.map normExt) data hwf

/-- Witness for C3: with extensions `["js"]` (JSON mode), only the record
whose URL ends in `.JS` survives — matching is case-insensitive. -/
theorem c3_filter_by_extensions_witness :
    filter_by_extensions
        [CdxRecord.structured [str ("http://a.com/x.JS"), str ("20200101000000"), str ("200")],
         CdxRecord.structured [str ("http://a.com/y.png"), str ("20200101000000"), str ("200")]]
        [str ("js")] false =
      some [CdxRecord.structured [str ("http://a.com/x.JS"), str ("20200101000000"), str ("200")]] :=
  (c3_filter_by_extensions_spec
      [CdxRecord.structured [str ("http://a.com/x.JS"), str ("20200101000000"), str ("200")],
       CdxRecord.structured [str ("http://a.com/y.png"), str ("20200101000000"), str ("200")]]
      [str ("js")] false (by decide) (by decide)).trans (by decide)

/-- Pointwise form of the status filter's keep decision: a structured
record with at least three fields is kept iff its third field parses to a
target status code, a textual record is always kept, any other record is
dropped. -/
def statusKeep (codes : List Int) : CdxRecord → Option CdxRecord
  | .textual s => some (.textual s)
  | .structured fields =>
    if 3 ≤ fields.length then
      match pyInt (fields.getD 2 []) with
      | none => none
      | some sc => if sc ∈ codes then some (.structured fields) else none
    else none

/-- A record the status filter can process without raising: any textual
record, and any structured record whose third field (when it has one)
parses as an integer. -/
def statusWf : CdxRecord → Bool
  | .textual _ => true
  | .structured fields =>
    if 3 ≤ fields.length then (pyInt (fields.getD 2 [])).isSome else true

theorem statusGo_spec (codes : List Int) (data : List CdxRecord)
    (hwf : ∀ r ∈ data, statusWf r = true) :
    statusGo codes data = some (data.filterMap (statusKeep codes)) := by
  induction data with
  | nil => rfl
  | cons r rs ih =>
    have hrest := ih (fun x hx => hwf x (List.mem_cons_of_mem r hx))
    cases r with
    | textual s => simp [statusGo, hrest, List.filterMap_cons, statusKeep]
    | structured fields =>
      by_cases h3 : 3 ≤ fields.length
      · have hs := hwf (CdxRecord.structured fields) (List.mem_cons_self _ _)
        simp only [statusWf, if_pos h3] at hs
        obtain ⟨n, hn⟩ := Option.isSome_iff_exists.mp hs
        have hn2 : pyInt (fields[2]?.getD []) = some n := by
          simpa [List.getD] using hn
        by_cases hin : n ∈ codes
        · simp [statusGo, h3, hn2, hrest, List.filterMap_cons, statusKeep, hin, List.getD]
        · simp [statusGo, h3, hn2, hrest, List.filterMap_cons, statusKeep, hin, List.getD]
      · simp [statusGo, h3, hrest, List.filterMap_cons, statusKeep]

/-- Claim C4: with a non-empty target set, on a collection whose
structured records of at least three fields all carry an
integer-parsable third field, the status filter keeps such a structured
record iff its third field parsed as an integer is in the target set, and
passes every plain-string record through unchanged (structured records
with fewer than three fields are dropped), preserving order. -/
theorem c4_filter_by_status_codes_spec (data : List CdxRecord) (codes : List Int)
    (hne : codes ≠ [])
    (hwf : ∀ r ∈ data, statusWf r = true) :
    filter_by_status_codes data codes = some (data.filterMap (statusKeep codes)) := by
  rw [filter_by_status_codes, if_neg (by simp [List.isEmpty_iff, hne])]
  exact statusGo_spec codes data hwf

/-- Witness for C4: of structured records with status codes 200, 404 and
500, targeting `[404]` keeps exactly the 404 record, and a textual record
passes through. -/
theorem c4_filter_by_status_codes_witness :
    filter_by_status_codes
        [CdxRecord.structured [str ("http://t.com/a"), str ("20200101000000"), str ("200")],
         CdxRecord.structured [str ("http://t.com/b"), str ("20200101000000"), str ("404")],
         CdxRecord.structured [str ("http://t.com/c"), str ("20200101000000"), str ("500")],
         CdxRecord.textual (str ("http://t.com/d"))]
        [404] =
      some [CdxRecord.structured [str ("http://t.com/b"), str ("20200101000000"), str ("404")],
            CdxRecord.textual (str ("http://t.com/d"))] :=
  (c4_filter_by_status_codes_spec
      [CdxRecord.structured [str ("http://t.com/a"), str ("20200101000000"), str ("200")],
       CdxRecord.structured [str ("http://t.com/b"), str ("20200101000000"), str ("404")],
       CdxRecord.structured [str ("http://t.com/c"), str ("20200101000000"), str ("500")],
       CdxRecord.textual (str ("http://t.com/d"))]
      [404] (by decide) (by decide)).trans (by decide)

/-- Witness for C6 at the concrete domain `example.com`. -/
theorem c6_build_cdx_url_witness :
    build_cdx_url (str ("example.com")) true =
      str ("https://web.archive.org/cdx/search/cdx?url=*.") ++ str ("example.com") ++
        str ("/*&collapse=urlkey&output=text&fl=original") :=
  (c6_build_cdx_url_spec (str ("example.com"))).1

/-- Witness for C7 at a concrete two-record collection. -/
theorem c7_empty_criteria_witness :
    filter_by_extensions
        [CdxRecord.textual (str ("http://t.com/a")), CdxRecord.textual (str ("http://t.com/b"))]
        [] true =
      some [CdxRecord.textual (str ("http://t.com/a")), CdxRecord.textual (str ("http://t.com/b"))] :=
  c7_empty_criteria_identity.1
    [CdxRecord.textual (str ("http://t.com/a")), CdxRecord.textual (str ("http://t.com/b"))] true

/-- Witness for C8 at a concrete event: missing `-u` exits 1. -/
theorem c8_exit_codes_witness :
    main_exit false false RunEvent.ok = 1 :=
  c8_exit_codes.2.2.2.2.2.2 RunEvent.ok

end Wayrecon
